import Mathlib

/-!
Shallow embedding of `setup.py` from the testfixtures repository.

The script reads test requirements out of `tox.ini` (section `testenv`,
key `deps`), splits them on whitespace, appends `tox` and a
version-dependent tail, reads a version string and a long description
from two text files, and passes everything to `setup(...)`.

The embedding models:
  * Python `str.split()` (split on whitespace runs, drop empty tokens)
    as `pySplit`;
  * Python `str.strip()` as `pyStrip`;
  * Python tuple comparison `sys.version_info[:2] < (2, 6)` as `versionLt`;
  * `RawConfigParser.read` / `RawConfigParser.get` as `configRead` /
    `configGet`: reading a missing file silently yields an empty
    configuration while a malformed file raises a parse error, and
    `get` falls back to the `[DEFAULT]` section when the option is
    missing from the named section, raising `NoSectionError` /
    `NoOptionError` otherwise;
  * `find_packages()` as a function of the directory tree, independent
    of the three files the script reads;
  * the whole script as `runSetup` over an abstract file system `FS`,
    returning `Except PyError SetupArgs` (an uncaught Python exception
    becomes `Except.error`).
-/

/-- Python whitespace characters recognised by `str.split()` / `str.strip()`. -/
def isPyWs (c : Char) : Bool :=
  c = ' ' || c = '\t' || c = '\n' || c = '\r' || c = '\x0b' || c = '\x0c'

/-- Python `str.split()` with no argument: split on runs of whitespace,
producing no empty tokens. -/
def pySplit (s : String) : List String :=
  ((s.data.splitOnP isPyWs).filter (· ≠ [])).map String.mk

/-- Python `str.strip()` on a character list: drop leading and trailing
whitespace. -/
def pyStripList (l : List Char) : List Char :=
  ((l.dropWhile isPyWs).reverse.dropWhile isPyWs).reverse

/-- Python `str.strip()`: remove leading and trailing whitespace. -/
def pyStrip (s : String) : String :=
  String.mk (pyStripList s.data)

/-- Python tuple comparison on `sys.version_info[:2]`: lexicographic. -/
def versionLt (a b : Nat × Nat) : Bool :=
  decide (a.1 < b.1) || (decide (a.1 = b.1) && decide (a.2 < b.2))

/-- The four entries appended when `sys.version_info[:2] < (2, 6)`
(setup.py lines 21-24), each carrying a version pin. -/
def pinnedFallbackEntries : List String :=
  ["manuel<1.6", "zope.component<4.0.0dev", "zope.event<4.0.0dev",
   "zope.interface>=3.6.0,<4.0dev"]

/-- The `test_requires` list assembled by setup.py lines 14-27: the
whitespace-split `deps` value accumulated by the `for` loop, then `tox`,
then either the pinned fallback entries (old interpreters) or the bare
`zope.component`. -/
def test_requires (deps : String) (version_info : Nat × Nat) : List String :=
  let base := (pySplit deps).foldl (fun acc item => acc ++ [item]) []
  let withTox := base ++ ["tox"]
  if versionLt version_info (2, 6) then
    withTox ++ pinnedFallbackEntries
  else
    withTox ++ ["zope.component"]

/-- A Python exception escaping the script. -/
inductive PyError where
  | NoSectionError (sec : String)
  | NoOptionError (sec opt : String)
  | IOError (path : String)
  | ParsingError (path : String)
deriving DecidableEq, Repr

/-- The state of a `RawConfigParser` after reading an ini-style file:
the option/value pairs of the `[DEFAULT]` section, kept apart from the
named sections exactly as the parser keeps `_defaults` apart from
`_sections`. -/
structure ConfigData where
  defaults : List (String × String)
  sections : List (String × List (String × String))
deriving DecidableEq, Repr

/-- The name of the special default section of `RawConfigParser`. -/
def DEFAULTSECT : String := "DEFAULT"

/-- `RawConfigParser.read` on a single path: a missing file is silently
ignored, leaving the parser empty; an existing file either parses into
`ConfigData` or raises its parse error. -/
def configRead (file : Option (Except PyError ConfigData)) :
    Except PyError ConfigData :=
  match file with
  | none => .ok { defaults := [], sections := [] }
  | some r => r

/-- `RawConfigParser.get(sec, opt)` of Python 2.7: raise
`NoSectionError` when the named section is absent (unless it is the
`DEFAULT` section itself); otherwise return the option from the named
section, falling back to the `[DEFAULT]` values, and raise
`NoOptionError` when both are missing. -/
def configGet (cfg : ConfigData) (sec opt : String) : Except PyError String :=
  match List.lookup sec cfg.sections with
  | none =>
    if sec = DEFAULTSECT then
      match List.lookup opt cfg.defaults with
      | some v => .ok v
      | none => .error (.NoOptionError sec opt)
    else
      .error (.NoSectionError sec)
  | some opts =>
    match List.lookup opt opts with
    | some v => .ok v
    | none =>
      match List.lookup opt cfg.defaults with
      | some v => .ok v
      | none => .error (.NoOptionError sec opt)

/-- The inputs the script touches, as an abstract world: the three files
it reads (`none` means the file is absent; `tox.ini` is kept in parsed
form, or as the parse error a malformed file raises) and the directory
tree that `find_packages()` scans, each directory paired with whether it
is a Python package. -/
structure FS where
  toxIni : Option (Except PyError ConfigData)
  versionTxt : Option String
  descriptionTxt : Option String
  tree : List (String × Bool)

/-- Opening and reading a whole file: raises `IOError` when absent. -/
def readFile (contents : Option String) (path : String) : Except PyError String :=
  match contents with
  | none => .error (.IOError path)
  | some c => .ok c

/-- setuptools `find_packages()`: the package directories discovered by
scanning the directory tree under the base directory. It depends on the
tree, not on the three files the script reads. -/
def find_packages (tree : List (String × Bool)) : List String :=
  (tree.filter (fun d => d.2)).map (fun d => d.1)

/-- The arguments the script passes to `setup(...)` (setup.py lines
29-49). -/
structure SetupArgs where
  name : String
  version : String
  author : String
  author_email : String
  license : String
  description : String
  long_description : String
  url : String
  classifiers : List String
  packages : List String
  zip_safe : Bool
  include_package_data : Bool
  extras_require_test : List String
deriving DecidableEq, Repr

/-- The whole script: read `tox.ini` (line 13), look up `testenv`/`deps`
(line 15), assemble `test_requires` (lines 14-27), then evaluate the
`setup(...)` arguments in source order — `version.txt` is read before
`docs/description.txt`, and `packages` is `find_packages()` on the
tree. Any Python exception propagates as `.error`. -/
def runSetup (fs : FS) (version_info : Nat × Nat) : Except PyError SetupArgs :=
  match configRead fs.toxIni with
  | .error e => .error e
  | .ok config =>
    match configGet config "testenv" "deps" with
    | .error e => .error e
    | .ok deps =>
      match readFile fs.versionTxt "testfixtures/version.txt" with
      | .error e => .error e
      | .ok versionContents =>
        match readFile fs.descriptionTxt "docs/description.txt" with
        | .error e => .error e
        | .ok descContents =>
          .ok {
            name := "testfixtures"
            version := pyStrip versionContents
            author := "Chris Withers"
            author_email := "chris@simplistix.co.uk"
            license := "MIT"
            description := "A collection of helpers and mock objects for unit tests and doc tests."
            long_description := descContents
            url := "http://www.simplistix.co.uk/software/python/testfixtures"
            classifiers := [
              "Development Status :: 5 - Production/Stable",
              "Intended Audience :: Developers",
              "License :: OSI Approved :: MIT License"]
            packages := find_packages fs.tree
            zip_safe := false
            include_package_data := true
            extras_require_test := test_requires deps version_info }

/-! ### Concrete fixtures used by witnesses and counterexamples -/

/-- A file system on which every read succeeds. -/
def fsSample : FS where
  toxIni := some (Except.ok
    { defaults := [], sections := [("testenv", [("deps", "mock manuel")])] })
  versionTxt := some "  3.0.1\n"
  descriptionTxt := some "docs text"
  tree := [("testfixtures", true), ("docs", false)]

/-- A second file system whose contents equal those of `fsSample`. -/
def fsSample2 : FS where
  toxIni := some (Except.ok
    { defaults := [], sections := [("testenv", [("deps", "mock manuel")])] })
  versionTxt := some "  3.0.1\n"
  descriptionTxt := some "docs text"
  tree := [("testfixtures", true), ("docs", false)]

/-- The arguments the script passes to `setup` on `fsSample` under
interpreter version (2, 7). -/
def argsSample : SetupArgs where
  name := "testfixtures"
  version := "3.0.1"
  author := "Chris Withers"
  author_email := "chris@simplistix.co.uk"
  license := "MIT"
  description := "A collection of helpers and mock objects for unit tests and doc tests."
  long_description := "docs text"
  url := "http://www.simplistix.co.uk/software/python/testfixtures"
  classifiers := [
    "Development Status :: 5 - Production/Stable",
    "Intended Audience :: Developers",
    "License :: OSI Approved :: MIT License"]
  packages := ["testfixtures"]
  zip_safe := false
  include_package_data := true
  extras_require_test := ["mock", "manuel", "tox", "zope.component"]

/-- A file system whose version file is absent. -/
def fsNoVersion : FS where
  toxIni := some (Except.ok
    { defaults := [], sections := [("testenv", [("deps", "mock")])] })
  versionTxt := none
  descriptionTxt := some "docs text"
  tree := [("testfixtures", true)]

/-- A file system whose `tox.ini` is absent. -/
def fsNoTox : FS where
  toxIni := none
  versionTxt := some "1.0"
  descriptionTxt := some "docs text"
  tree := [("testfixtures", true)]

/-- A configuration whose `testenv` section has no `deps` key, while
the `[DEFAULT]` section defines one. -/
def cfgDepsInDefault : ConfigData where
  defaults := [("deps", "mock")]
  sections := [("testenv", [])]

/-- A file system whose `tox.ini` parses to `cfgDepsInDefault`. -/
def fsDepsInDefault : FS where
  toxIni := some (Except.ok cfgDepsInDefault)
  versionTxt := some "1.0"
  descriptionTxt := some "docs text"
  tree := [("testfixtures", true)]

/-- The arguments produced on `fsDepsInDefault` under version (2, 7):
the dependency tokens come from the `[DEFAULT]` value `mock`. -/
def argsDepsInDefault : SetupArgs where
  name := "testfixtures"
  version := "1.0"
  author := "Chris Withers"
  author_email := "chris@simplistix.co.uk"
  license := "MIT"
  description := "A collection of helpers and mock objects for unit tests and doc tests."
  long_description := "docs text"
  url := "http://www.simplistix.co.uk/software/python/testfixtures"
  classifiers := [
    "Development Status :: 5 - Production/Stable",
    "Intended Audience :: Developers",
    "License :: OSI Approved :: MIT License"]
  packages := ["testfixtures"]
  zip_safe := false
  include_package_data := true
  extras_require_test := ["mock", "tox", "zope.component"]

/-- A file system with one package directory in its tree. -/
def fsTreeA : FS where
  toxIni := some (Except.ok
    { defaults := [], sections := [("testenv", [("deps", "mock")])] })
  versionTxt := some "1.0"
  descriptionTxt := some "docs text"
  tree := [("testfixtures", true)]

/-- The same three file contents as `fsTreeA`, over a tree holding one
more package directory. -/
def fsTreeB : FS where
  toxIni := some (Except.ok
    { defaults := [], sections := [("testenv", [("deps", "mock")])] })
  versionTxt := some "1.0"
  descriptionTxt := some "docs text"
  tree := [("testfixtures", true), ("extras", true)]

/-- The arguments produced on `fsTreeA` under version (2, 7). -/
def argsTreeA : SetupArgs where
  name := "testfixtures"
  version := "1.0"
  author := "Chris Withers"
  author_email := "chris@simplistix.co.uk"
  license := "MIT"
  description := "A collection of helpers and mock objects for unit tests and doc tests."
  long_description := "docs text"
  url := "http://www.simplistix.co.uk/software/python/testfixtures"
  classifiers := [
    "Development Status :: 5 - Production/Stable",
    "Intended Audience :: Developers",
    "License :: OSI Approved :: MIT License"]
  packages := ["testfixtures"]
  zip_safe := false
  include_package_data := true
  extras_require_test := ["mock", "tox", "zope.component"]

/-- The arguments produced on `fsTreeB` under version (2, 7): the
`packages` argument differs from `argsTreeA`. -/
def argsTreeB : SetupArgs where
  name := "testfixtures"
  version := "1.0"
  author := "Chris Withers"
  author_email := "chris@simplistix.co.uk"
  license := "MIT"
  description := "A collection of helpers and mock objects for unit tests and doc tests."
  long_description := "docs text"
  url := "http://www.simplistix.co.uk/software/python/testfixtures"
  classifiers := [
    "Development Status :: 5 - Production/Stable",
    "Intended Audience :: Developers",
    "License :: OSI Approved :: MIT License"]
  packages := ["testfixtures", "extras"]
  zip_safe := false
  include_package_data := true
  extras_require_test := ["mock", "tox", "zope.component"]

/-! ### Helper lemmas -/

/-- The `for` loop accumulating into `test_requires` builds exactly the
split list. -/
theorem foldl_append_singleton (l acc : List String) :
    l.foldl (fun a item => a ++ [item]) acc = acc ++ l := by
  induction l generalizing acc with
  | nil => simp
  | cons x xs ih => simp [List.foldl_cons, ih]

/-- Structure of the assembled requirement list. -/
theorem test_requires_eq (deps : String) (vi : Nat × Nat) :
    test_requires deps vi =
      pySplit deps ++ "tox" ::
        (if versionLt vi (2, 6) then pinnedFallbackEntries
         else ["zope.component"]) := by
  unfold test_requires
  rw [foldl_append_singleton]
  by_cases h : versionLt vi (2, 6) <;> simp [h]

/-- The first remaining character after `dropWhile` fails the predicate. -/
theorem head?_dropWhile_false (p : Char → Bool) (l : List Char) (c : Char)
    (h : (l.dropWhile p).head? = some c) : p c = false := by
  induction l with
  | nil => simp at h
  | cons a as ih =>
    rw [List.dropWhile_cons] at h
    by_cases hp : p a
    · rw [if_pos hp] at h
      exact ih h
    · rw [if_neg hp] at h
      simp only [List.head?_cons, Option.some.injEq] at h
      subst h
      exact Bool.of_not_eq_true hp

/-- Dropping the leading whitespace leaves the stripped core followed by
the trailing whitespace. -/
theorem dropWhile_eq_strip_append (l : List Char) :
    l.dropWhile isPyWs =
      pyStripList l ++ ((l.dropWhile isPyWs).reverse.takeWhile isPyWs).reverse :=
  calc l.dropWhile isPyWs
      = (l.dropWhile isPyWs).reverse.reverse := (List.reverse_reverse _).symm
    _ = ((l.dropWhile isPyWs).reverse.takeWhile isPyWs ++
          (l.dropWhile isPyWs).reverse.dropWhile isPyWs).reverse := by
        rw [List.takeWhile_append_dropWhile]
    _ = ((l.dropWhile isPyWs).reverse.dropWhile isPyWs).reverse ++
          ((l.dropWhile isPyWs).reverse.takeWhile isPyWs).reverse := by
        rw [List.reverse_append]
    _ = _ := rfl

/-- `pyStripList` removes only leading and trailing whitespace. -/
theorem pyStripList_decomp (l : List Char) :
    ∃ pre post, l = pre ++ pyStripList l ++ post ∧
      pre.all isPyWs ∧ post.all isPyWs := by
  refine ⟨l.takeWhile isPyWs,
    ((l.dropWhile isPyWs).reverse.takeWhile isPyWs).reverse, ?_, ?_, ?_⟩
  · conv_lhs => rw [← List.takeWhile_append_dropWhile isPyWs l]
    rw [List.append_assoc]
    congr 1
    exact dropWhile_eq_strip_append l
  · exact List.all_eq_true.2 fun x hx => List.mem_takeWhile_imp hx
  · exact List.all_eq_true.2 fun x hx =>
      List.mem_takeWhile_imp (List.mem_reverse.1 hx)

/-- The stripped core does not start with whitespace. -/
theorem pyStripList_head (l : List Char) (c : Char)
    (h : (pyStripList l).head? = some c) : isPyWs c = false := by
  have hne : pyStripList l ≠ [] := by
    intro hnil
    rw [hnil] at h
    simp at h
  have ht : (l.dropWhile isPyWs).head? = some c := by
    rw [dropWhile_eq_strip_append l, List.head?_append_of_ne_nil _ hne, h]
  exact head?_dropWhile_false isPyWs l c ht

/-- The stripped core does not end with whitespace. -/
theorem pyStripList_getLast (l : List Char) (c : Char)
    (h : (pyStripList l).getLast? = some c) : isPyWs c = false := by
  have h' : ((l.dropWhile isPyWs).reverse.dropWhile isPyWs).head? = some c := by
    rw [← List.getLast?_reverse]
    exact h
  exact head?_dropWhile_false isPyWs _ c h'

/-- Splitting an all-whitespace list yields only empty chunks. -/
theorem splitOnP_all_ws (l : List Char) (h : ∀ c ∈ l, isPyWs c) :
    ∀ x ∈ l.splitOnP isPyWs, x = [] := by
  induction l with
  | nil =>
    intro x hx
    simp [List.splitOnP_nil] at hx
    exact hx
  | cons a as ih =>
    intro x hx
    rw [List.splitOnP_cons, if_pos (h a (List.mem_cons_self a as))] at hx
    rcases List.mem_cons.1 hx with h1 | h2
    · exact h1
    · exact ih (fun c hc => h c (List.mem_cons_of_mem a hc)) x h2

/-- Python `split()` of an all-whitespace string is empty. -/
theorem pySplit_all_ws (s : String) (h : s.data.all isPyWs) :
    pySplit s = [] := by
  unfold pySplit
  have hall := List.all_eq_true.1 h
  have : (s.data.splitOnP isPyWs).filter (· ≠ []) = [] := by
    rw [List.filter_eq_nil_iff]
    intro a ha
    have := splitOnP_all_ws s.data hall a ha
    simp [this]
  rw [this]
  rfl

/-- Python `split()` never produces an empty token. -/
theorem pySplit_no_empty (s : String) : "" ∉ pySplit s := by
  unfold pySplit
  intro h
  rcases List.mem_map.1 h with ⟨l, hl, hmk⟩
  have hne := (List.mem_filter.1 hl).2
  have hnil : l = [] := by simpa using congrArg String.data hmk
  rw [hnil] at hne
  simp at hne

/-- Inversion of a successful `get` on a non-default section: the
section exists, and the value came from it or fell back to the
`[DEFAULT]` values. -/
theorem configGet_ok_inv (cfg : ConfigData) (sec opt v : String)
    (hso : ¬ sec = DEFAULTSECT)
    (h : configGet cfg sec opt = Except.ok v) :
    ∃ opts, List.lookup sec cfg.sections = some opts ∧
      (List.lookup opt opts = some v ∨
        (List.lookup opt opts = none ∧
         List.lookup opt cfg.defaults = some v)) := by
  unfold configGet at h
  split at h
  · rw [if_neg hso] at h
    exact absurd h (by simp)
  · rename_i opts hsec
    split at h
    · rename_i v' hopt
      have hv : v' = v := Except.ok.inj h
      subst hv
      exact ⟨opts, hsec, Or.inl hopt⟩
    · rename_i hopt
      split at h
      · rename_i v' hdef
        have hv : v' = v := Except.ok.inj h
        subst hv
        exact ⟨opts, hsec, Or.inr ⟨hopt, hdef⟩⟩
      · exact absurd h (by simp)

/-- `get` raises `NoSectionError` when a non-default section is absent. -/
theorem configGet_error_of_no_section (cfg : ConfigData) (sec opt : String)
    (hso : ¬ sec = DEFAULTSECT)
    (hsec : List.lookup sec cfg.sections = none) :
    configGet cfg sec opt = Except.error (PyError.NoSectionError sec) := by
  unfold configGet
  simp only [hsec]
  rw [if_neg hso]

/-- `get` raises `NoOptionError` when the option is missing from both
the named section and the `[DEFAULT]` values. -/
theorem configGet_error_of_no_option (cfg : ConfigData) (sec opt : String)
    (opts : List (String × String))
    (hsec : List.lookup sec cfg.sections = some opts)
    (hopt : List.lookup opt opts = none)
    (hdef : List.lookup opt cfg.defaults = none) :
    configGet cfg sec opt = Except.error (PyError.NoOptionError sec opt) := by
  unfold configGet
  simp only [hsec, hopt, hdef]

/-- Inversion of a successful file read: the file was present with the
returned contents. -/
theorem readFile_ok_inv (contents : Option String) (path v : String)
    (h : readFile contents path = Except.ok v) : contents = some v := by
  cases contents with
  | none => exact absurd h (by simp [readFile])
  | some c =>
    have hc : c = v := Except.ok.inj h
    rw [hc]

/-- Inversion of a successful run: every read succeeded and the result
is the literal argument record. -/
theorem runSetup_ok_inv (fs : FS) (vi : Nat × Nat) (a : SetupArgs)
    (h : runSetup fs vi = Except.ok a) :
    ∃ config deps versionContents descContents,
      configRead fs.toxIni = Except.ok config ∧
      configGet config "testenv" "deps" = Except.ok deps ∧
      fs.versionTxt = some versionContents ∧
      fs.descriptionTxt = some descContents ∧
      a = { name := "testfixtures"
            version := pyStrip versionContents
            author := "Chris Withers"
            author_email := "chris@simplistix.co.uk"
            license := "MIT"
            description := "A collection of helpers and mock objects for unit tests and doc tests."
            long_description := descContents
            url := "http://www.simplistix.co.uk/software/python/testfixtures"
            classifiers := [
              "Development Status :: 5 - Production/Stable",
              "Intended Audience :: Developers",
              "License :: OSI Approved :: MIT License"]
            packages := find_packages fs.tree
            zip_safe := false
            include_package_data := true
            extras_require_test := test_requires deps vi } := by
  unfold runSetup at h
  split at h
  · exact absurd h (by simp)
  · rename_i config hcr
    split at h
    · exact absurd h (by simp)
    · rename_i deps hdeps
      split at h
      · exact absurd h (by simp)
      · rename_i versionContents hvc
        split at h
        · exact absurd h (by simp)
        · rename_i descContents hdc
          exact ⟨config, deps, versionContents, descContents, hcr, hdeps,
            readFile_ok_inv fs.versionTxt _ versionContents hvc,
            readFile_ok_inv fs.descriptionTxt _ descContents hdc,
            (Except.ok.inj h).symm⟩

/-! ### Claim theorems -/

/-- Claim C1: for every `deps` value, the assembled test-requirements
list is exactly the whitespace-separated tokens of that value, in order,
followed by the extra entries appended after them (`tox`, then the
version-dependent tail). -/
theorem claim1_deps_tokens_then_extras (deps : String) (vi : Nat × Nat) :
    test_requires deps vi =
      pySplit deps ++ "tox" ::
        (if versionLt vi (2, 6) then pinnedFallbackEntries
         else ["zope.component"]) :=
  test_requires_eq deps vi

/-- Claim C2, counterexample: on the old-interpreter branch the list
holds four pinned fallback entries, not exactly three; and for the input
whose `deps` value is the single token `zope.component`, the bare
`zope.component` entry is present even on the old branch. -/
theorem claim2_counterexample :
    ¬ ((test_requires "" (2, 5)).countP
        (fun e => decide (e ∈ pinnedFallbackEntries)) = 3) ∧
    "zope.component" ∈ test_requires "zope.component" (2, 5) := by
  constructor
  · decide
  · decide

/-- Claim C2 as amended: for every input whose `deps` tokens include
none of the branch-dependent entries, on the old-interpreter branch the
list contains exactly four pinned fallback entries (each of the four is
present) and not the bare `zope.component`; at or above the cutoff the
list contains `zope.component` and none of the pinned entries. -/
theorem claim2_amended_pinned_iff_old (deps : String) (vi : Nat × Nat)
    (hd : ∀ t ∈ pySplit deps, t ∉ "zope.component" :: pinnedFallbackEntries) :
    (versionLt vi (2, 6) = true →
      (test_requires deps vi).countP
        (fun e => decide (e ∈ pinnedFallbackEntries)) = 4 ∧
      (∀ e ∈ pinnedFallbackEntries, e ∈ test_requires deps vi) ∧
      "zope.component" ∉ test_requires deps vi) ∧
    (versionLt vi (2, 6) = false →
      "zope.component" ∈ test_requires deps vi ∧
      (test_requires deps vi).countP
        (fun e => decide (e ∈ pinnedFallbackEntries)) = 0 ∧
      (∀ e ∈ pinnedFallbackEntries, e ∉ test_requires deps vi)) := by
  have hd0 : (pySplit deps).countP
      (fun e => decide (e ∈ pinnedFallbackEntries)) = 0 := by
    rw [List.countP_eq_zero]
    intro t ht
    have := hd t ht
    simp only [List.mem_cons, not_or] at this
    simpa using this.2
  have hdz : ∀ t ∈ pySplit deps, t ≠ "zope.component" := by
    intro t ht
    have := hd t ht
    simp only [List.mem_cons, not_or] at this
    exact this.1
  have hdp : ∀ t ∈ pySplit deps, t ∉ pinnedFallbackEntries := by
    intro t ht
    have := hd t ht
    simp only [List.mem_cons, not_or] at this
    exact this.2
  constructor
  · intro hv
    rw [test_requires_eq, hv]
    simp only [if_true]
    refine ⟨?_, ?_, ?_⟩
    · rw [List.countP_append, hd0]
      decide
    · intro e he
      exact List.mem_append.2 (Or.inr (List.mem_cons_of_mem _ he))
    · intro hmem
      rcases List.mem_append.1 hmem with h1 | h2
      · exact hdz _ h1 rfl
      · revert h2
        decide
  · intro hv
    rw [test_requires_eq, hv]
    rw [if_neg Bool.false_ne_true]
    refine ⟨?_, ?_, ?_⟩
    · exact List.mem_append.2 (Or.inr (by decide))
    · rw [List.countP_append, hd0]
      decide
    · intro e he hmem
      rcases List.mem_append.1 hmem with h1 | h2
      · exact hdp _ h1 he
      · have h3 : e = "tox" ∨ e = "zope.component" := by simpa using h2
        rcases h3 with h3 | h3 <;> rw [h3] at he <;> revert he <;> decide

/-- Claim C2 amended, witness: the old branch at interpreter (2, 5)
with `deps` tokens disjoint from the appended entries. -/
theorem claim2_amended_pinned_iff_old_witness :
    (∀ t ∈ pySplit "mock manuel",
      t ∉ "zope.component" :: pinnedFallbackEntries) ∧
    ((versionLt (2, 5) (2, 6) = true →
      (test_requires "mock manuel" (2, 5)).countP
        (fun e => decide (e ∈ pinnedFallbackEntries)) = 4 ∧
      (∀ e ∈ pinnedFallbackEntries, e ∈ test_requires "mock manuel" (2, 5)) ∧
      "zope.component" ∉ test_requires "mock manuel" (2, 5)) ∧
    (versionLt (2, 5) (2, 6) = false →
      "zope.component" ∈ test_requires "mock manuel" (2, 5) ∧
      (test_requires "mock manuel" (2, 5)).countP
        (fun e => decide (e ∈ pinnedFallbackEntries)) = 0 ∧
      (∀ e ∈ pinnedFallbackEntries, e ∉ test_requires "mock manuel" (2, 5)))) :=
  ⟨by decide, claim2_amended_pinned_iff_old "mock manuel" (2, 5) (by decide)⟩

/-- Claim C3: the version string passed to the packaging call equals the
version file's contents with leading and trailing whitespace removed and
is otherwise unmodified: the contents decompose as whitespace, the
version string verbatim, whitespace; and the version string itself
neither starts nor ends with whitespace. -/
theorem claim3_version_is_stripped (fs : FS) (vi : Nat × Nat) (a : SetupArgs)
    (c : String) (hv : fs.versionTxt = some c)
    (h : runSetup fs vi = Except.ok a) :
    a.version = pyStrip c ∧
    (∃ pre post, c.data = pre ++ a.version.data ++ post ∧
      pre.all isPyWs ∧ post.all isPyWs) ∧
    (∀ ch, a.version.data.head? = some ch → isPyWs ch = false) ∧
    (∀ ch, a.version.data.getLast? = some ch → isPyWs ch = false) := by
  obtain ⟨config, deps, vc, dc, hcr, hok, hvc, hdc, ha⟩ :=
    runSetup_ok_inv fs vi a h
  rw [hv] at hvc
  have hcv : c = vc := Option.some_inj.1 hvc
  subst hcv
  subst ha
  refine ⟨rfl, ?_, ?_, ?_⟩
  · exact pyStripList_decomp c.data
  · intro ch hch
    exact pyStripList_head c.data ch hch
  · intro ch hch
    exact pyStripList_getLast c.data ch hch

/-- Claim C3, witness: a concrete run whose version file holds a
whitespace-padded version string. -/
theorem claim3_version_is_stripped_witness :
    fsSample.versionTxt = some "  3.0.1\n" ∧
    runSetup fsSample (2, 7) = Except.ok argsSample ∧
    (argsSample.version = pyStrip "  3.0.1\n" ∧
     (∃ pre post, ("  3.0.1\n").data = pre ++ argsSample.version.data ++ post ∧
       pre.all isPyWs ∧ post.all isPyWs) ∧
     (∀ ch, argsSample.version.data.head? = some ch → isPyWs ch = false) ∧
     (∀ ch, argsSample.version.data.getLast? = some ch → isPyWs ch = false)) :=
  ⟨rfl, rfl,
    claim3_version_is_stripped fsSample (2, 7) argsSample "  3.0.1\n" rfl rfl⟩

/-- Claim C4, counterexample: the `testenv` section of
`cfgDepsInDefault` has no `deps` key, yet the script raises nothing and
succeeds, because `get` falls back to the `[DEFAULT]` value. -/
theorem claim4_counterexample :
    List.lookup "testenv" cfgDepsInDefault.sections = some [] ∧
    List.lookup "deps" ([] : List (String × String)) = none ∧
    runSetup fsDepsInDefault (2, 7) = Except.ok argsDepsInDefault :=
  ⟨rfl, rfl, rfl⟩

/-- Claim C4 as amended: if any of the files read by the script is
missing, or `tox.ini` fails to parse, or the `testenv` section is
absent, or the `deps` key is absent from both the `testenv` section and
the `[DEFAULT]` section, the script returns an uncaught error; nothing
is caught, translated or retried. -/
theorem claim4_amended_errors_propagate (fs : FS) (vi : Nat × Nat)
    (h : fs.toxIni = none ∨
      (∃ e, fs.toxIni = some (Except.error e)) ∨
      fs.versionTxt = none ∨ fs.descriptionTxt = none ∨
      (∃ config, configRead fs.toxIni = Except.ok config ∧
        List.lookup "testenv" config.sections = none) ∨
      (∃ config opts, configRead fs.toxIni = Except.ok config ∧
        List.lookup "testenv" config.sections = some opts ∧
        List.lookup "deps" opts = none ∧
        List.lookup "deps" config.defaults = none)) :
    ∃ e, runSetup fs vi = Except.error e := by
  cases hr : runSetup fs vi with
  | error e => exact ⟨e, rfl⟩
  | ok a =>
    exfalso
    obtain ⟨config, deps, vc, dc, hcr, hok, hvc, hdc, _⟩ :=
      runSetup_ok_inv fs vi a hr
    rcases h with h1 | ⟨e, h1⟩ | h1 | h1 |
      ⟨cfg, hcfg, hsec⟩ | ⟨cfg, opts, hcfg, hsec, hopt, hdef⟩
    · rw [h1] at hcr
      have hconfig : ({ defaults := [], sections := [] } : ConfigData) =
          config := Except.ok.inj hcr
      rw [← hconfig] at hok
      have h2 : configGet { defaults := [], sections := [] }
          "testenv" "deps" =
          Except.error (PyError.NoSectionError "testenv") := rfl
      rw [h2] at hok
      exact Except.noConfusion hok
    · rw [h1] at hcr
      exact Except.noConfusion hcr
    · rw [h1] at hvc
      exact Option.noConfusion hvc
    · rw [h1] at hdc
      exact Option.noConfusion hdc
    · rw [hcfg] at hcr
      have hceq : cfg = config := Except.ok.inj hcr
      rw [hceq] at hsec
      rw [configGet_error_of_no_section config "testenv" "deps"
        (by decide) hsec] at hok
      exact Except.noConfusion hok
    · rw [hcfg] at hcr
      have hceq : cfg = config := Except.ok.inj hcr
      rw [hceq] at hsec hdef
      rw [configGet_error_of_no_option config "testenv" "deps" opts
        hsec hopt hdef] at hok
      exact Except.noConfusion hok

/-- Claim C4 amended, witness: the version file is absent and the run
errors. -/
theorem claim4_amended_errors_propagate_witness :
    (fsNoVersion.toxIni = none ∨
     (∃ e, fsNoVersion.toxIni = some (Except.error e)) ∨
     fsNoVersion.versionTxt = none ∨ fsNoVersion.descriptionTxt = none ∨
     (∃ config, configRead fsNoVersion.toxIni = Except.ok config ∧
       List.lookup "testenv" config.sections = none) ∨
     (∃ config opts, configRead fsNoVersion.toxIni = Except.ok config ∧
       List.lookup "testenv" config.sections = some opts ∧
       List.lookup "deps" opts = none ∧
       List.lookup "deps" config.defaults = none)) ∧
    (∃ e, runSetup fsNoVersion (2, 7) = Except.error e) :=
  ⟨Or.inr (Or.inr (Or.inl rfl)),
    claim4_amended_errors_propagate fsNoVersion (2, 7)
      (Or.inr (Or.inr (Or.inl rfl)))⟩

/-- Claim C5, counterexample: with no `deps` key in the `testenv`
section, the run still succeeds and its dependency tokens come from the
`deps` value of the `[DEFAULT]` section — another section supplies the
tokens. -/
theorem claim5_counterexample :
    List.lookup "deps" ([] : List (String × String)) = none ∧
    List.lookup "deps" cfgDepsInDefault.defaults = some "mock" ∧
    runSetup fsDepsInDefault (2, 7) = Except.ok argsDepsInDefault ∧
    argsDepsInDefault.extras_require_test =
      pySplit "mock" ++ ["tox", "zope.component"] :=
  ⟨rfl, rfl, rfl, by decide⟩

/-- Claim C5 as amended: on every successful run, the front of the
test-requirements list is the whitespace-split `deps` value as resolved
by the configuration lookup on `tox.ini`: from the `testenv` section
when that section defines `deps`, and otherwise from the `[DEFAULT]`
section; no other file, section or key contributes. -/
theorem claim5_amended_deps_from_lookup (fs : FS) (vi : Nat × Nat)
    (a : SetupArgs) (h : runSetup fs vi = Except.ok a) :
    ∃ config opts deps,
      configRead fs.toxIni = Except.ok config ∧
      List.lookup "testenv" config.sections = some opts ∧
      (List.lookup "deps" opts = some deps ∨
        (List.lookup "deps" opts = none ∧
         List.lookup "deps" config.defaults = some deps)) ∧
      a.extras_require_test =
        pySplit deps ++ "tox" ::
          (if versionLt vi (2, 6) then pinnedFallbackEntries
           else ["zope.component"]) := by
  obtain ⟨config, deps, vc, dc, hcr, hok, hvc, hdc, ha⟩ :=
    runSetup_ok_inv fs vi a h
  obtain ⟨opts, hsec, hsrc⟩ :=
    configGet_ok_inv config "testenv" "deps" deps (by decide) hok
  refine ⟨config, opts, deps, hcr, hsec, hsrc, ?_⟩
  rw [ha]
  exact test_requires_eq deps vi

/-- Claim C5 amended, witness: the concrete run on `fsSample`, whose
`testenv` section defines `deps`. -/
theorem claim5_amended_deps_from_lookup_witness :
    runSetup fsSample (2, 7) = Except.ok argsSample ∧
    (∃ config opts deps,
      configRead fsSample.toxIni = Except.ok config ∧
      List.lookup "testenv" config.sections = some opts ∧
      (List.lookup "deps" opts = some deps ∨
        (List.lookup "deps" opts = none ∧
         List.lookup "deps" config.defaults = some deps)) ∧
      argsSample.extras_require_test =
        pySplit deps ++ "tox" ::
          (if versionLt (2, 7) (2, 6) then pinnedFallbackEntries
           else ["zope.component"])) :=
  ⟨rfl, claim5_amended_deps_from_lookup fsSample (2, 7) argsSample rfl⟩

/-- Claim C6, counterexample: two runs with identical version,
description and configuration file contents but different directory
trees hand different `packages` arguments to the packaging call. -/
theorem claim6_counterexample :
    fsTreeA.toxIni = fsTreeB.toxIni ∧
    fsTreeA.versionTxt = fsTreeB.versionTxt ∧
    fsTreeA.descriptionTxt = fsTreeB.descriptionTxt ∧
    runSetup fsTreeA (2, 7) = Except.ok argsTreeA ∧
    runSetup fsTreeB (2, 7) = Except.ok argsTreeB ∧
    argsTreeA.packages ≠ argsTreeB.packages ∧
    runSetup fsTreeA (2, 7) ≠ runSetup fsTreeB (2, 7) := by
  refine ⟨rfl, rfl, rfl, rfl, rfl, by decide, ?_⟩
  intro h
  have hA : runSetup fsTreeA (2, 7) = Except.ok argsTreeA := rfl
  have hB : runSetup fsTreeB (2, 7) = Except.ok argsTreeB := rfl
  rw [hA, hB] at h
  have h2 := congrArg SetupArgs.packages (Except.ok.inj h)
  revert h2
  decide

/-- Claim C6 as amended: two runs with identical file contents, an
identical directory tree and an identical interpreter version follow
the same execution path and hand identical arguments (or the identical
error) to the packaging call. -/
theorem claim6_amended_deterministic (fs₁ fs₂ : FS) (vi₁ vi₂ : Nat × Nat)
    (h1 : fs₁.toxIni = fs₂.toxIni) (h2 : fs₁.versionTxt = fs₂.versionTxt)
    (h3 : fs₁.descriptionTxt = fs₂.descriptionTxt)
    (h4 : fs₁.tree = fs₂.tree) (hv : vi₁ = vi₂) :
    runSetup fs₁ vi₁ = runSetup fs₂ vi₂ := by
  subst hv
  cases fs₁
  cases fs₂
  cases h1
  cases h2
  cases h3
  cases h4
  rfl

/-- Claim C6 amended, witness: two distinct records with identical
contents and trees. -/
theorem claim6_amended_deterministic_witness :
    fsSample.toxIni = fsSample2.toxIni ∧
    fsSample.versionTxt = fsSample2.versionTxt ∧
    fsSample.descriptionTxt = fsSample2.descriptionTxt ∧
    fsSample.tree = fsSample2.tree ∧
    runSetup fsSample (2, 7) = runSetup fsSample2 (2, 7) :=
  ⟨rfl, rfl, rfl, rfl,
    claim6_amended_deterministic fsSample fsSample2 (2, 7) (2, 7)
      rfl rfl rfl rfl rfl⟩

/-- Claim C7: the static descriptive metadata handed to the packaging
call is constant: name, author, license, URL and the classifier list are
the literal values of the script on every successful run. -/
theorem claim7_static_metadata (fs : FS) (vi : Nat × Nat) (a : SetupArgs)
    (h : runSetup fs vi = Except.ok a) :
    a.name = "testfixtures" ∧ a.author = "Chris Withers" ∧
    a.license = "MIT" ∧
    a.url = "http://www.simplistix.co.uk/software/python/testfixtures" ∧
    a.classifiers = [
      "Development Status :: 5 - Production/Stable",
      "Intended Audience :: Developers",
      "License :: OSI Approved :: MIT License"] := by
  obtain ⟨config, deps, vc, dc, hcr, hok, hvc, hdc, ha⟩ :=
    runSetup_ok_inv fs vi a h
  rw [ha]
  exact ⟨rfl, rfl, rfl, rfl, rfl⟩

/-- Claim C7, witness: the concrete run on `fsSample`. -/
theorem claim7_static_metadata_witness :
    runSetup fsSample (2, 7) = Except.ok argsSample ∧
    (argsSample.name = "testfixtures" ∧ argsSample.author = "Chris Withers" ∧
     argsSample.license = "MIT" ∧
     argsSample.url = "http://www.simplistix.co.uk/software/python/testfixtures" ∧
     argsSample.classifiers = [
       "Development Status :: 5 - Production/Stable",
       "Intended Audience :: Developers",
       "License :: OSI Approved :: MIT License"]) :=
  ⟨rfl, claim7_static_metadata fsSample (2, 7) argsSample rfl⟩

/-- Claim C8: on every input the list contains `tox`, and it contains a
`zope.component` specifier: the pinned one below the cutoff, the bare
one at or above it. -/
theorem claim8_always_zope_and_tox (deps : String) (vi : Nat × Nat) :
    "tox" ∈ test_requires deps vi ∧
    (if versionLt vi (2, 6) then "zope.component<4.0.0dev"
     else "zope.component") ∈ test_requires deps vi := by
  rw [test_requires_eq]
  cases h : versionLt vi (2, 6) <;> simp [pinnedFallbackEntries]

/-- Claim C9: a missing `tox.ini` does not fail the read step itself —
the parser is just left empty — and the failure surfaces at the
`testenv` section lookup, as a missing-section error rather than a
file-open error. -/
theorem claim9_missing_toxini (fs : FS) (vi : Nat × Nat)
    (h : fs.toxIni = none) :
    configRead fs.toxIni = Except.ok { defaults := [], sections := [] } ∧
    runSetup fs vi = Except.error (PyError.NoSectionError "testenv") := by
  constructor
  · rw [h]
    rfl
  · unfold runSetup
    rw [h]
    rfl

/-- Claim C9, witness: the concrete file system without `tox.ini`. -/
theorem claim9_missing_toxini_witness :
    fsNoTox.toxIni = none ∧
    (configRead fsNoTox.toxIni =
       Except.ok { defaults := [], sections := [] } ∧
     runSetup fsNoTox (2, 7) =
       Except.error (PyError.NoSectionError "testenv")) :=
  ⟨rfl, claim9_missing_toxini fsNoTox (2, 7) rfl⟩

/-- Claim C10: an empty or all-whitespace `deps` value splits into no
tokens and contributes no empty-string entry, so the list is exactly the
appended extras. -/
theorem claim10_whitespace_deps (s : String) (vi : Nat × Nat)
    (h : s.data.all isPyWs) :
    pySplit s = [] ∧
    test_requires s vi =
      "tox" :: (if versionLt vi (2, 6) then pinnedFallbackEntries
                else ["zope.component"]) ∧
    "" ∉ test_requires s vi := by
  have hs := pySplit_all_ws s h
  refine ⟨hs, ?_, ?_⟩
  · rw [test_requires_eq, hs]
    rfl
  · rw [test_requires_eq, hs]
    cases hv : versionLt vi (2, 6) <;> decide

/-- Claim C10, witness: an all-whitespace `deps` value on the old
branch. -/
theorem claim10_whitespace_deps_witness :
    (" \n\t ".data.all isPyWs) ∧
    (pySplit " \n\t " = [] ∧
     test_requires " \n\t " (2, 5) =
       "tox" :: (if versionLt (2, 5) (2, 6) then pinnedFallbackEntries
                 else ["zope.component"]) ∧
     "" ∉ test_requires " \n\t " (2, 5)) :=
  ⟨by decide, claim10_whitespace_deps " \n\t " (2, 5) (by decide)⟩
